import Mathlib

/-!
Shallow embedding of `trading_bot.py` (Shanub11/Binance-Trading-Bot).

The bot speaks to an external Gateway (the Binance futures REST API).  We
model each Gateway interaction as an `Event` in a trace, and script the
Gateway's responses per attempt.  Quantities and prices are modelled as
rationals (the Python code uses floats); machine time stamps are `Int`
milliseconds.  A Python function that returns a value or `None` becomes
`Option`; a function that may let an exception escape becomes `Except Exn`.
-/

/-- Opaque payload of a successful `futures_create_order` response. -/
abbrev OrderResult := Nat

/-- Exceptions that can arise from Gateway calls or inside the bot.
`binanceAPI code` is `BinanceAPIException` with numeric `code`; `transport`
stands for any other exception a network call can raise (timeouts,
connection errors), which Python's `except BinanceAPIException` does not
catch; `keyError` models `filters['LOT_SIZE']` on a missing key and
`zeroDivision` models float division by `0.0`. -/
inductive Exn where
  | binanceAPI (code : Int)
  | transport
  | keyError
  | zeroDivision
deriving DecidableEq

/-- One entry of a symbol's `filters` list in `futures_exchange_info`. -/
structure ExFilter where
  filterType : String
  minQty : ℚ
  maxQty : ℚ
  stepSize : ℚ
deriving DecidableEq

/-- One entry of `info['symbols']` in `futures_exchange_info`. -/
structure SymbolInfo where
  symbol : String
  status : String
  filters : List ExFilter
deriving DecidableEq

/-- The `futures_exchange_info` payload. -/
structure ExchangeInfo where
  symbols : List SymbolInfo
deriving DecidableEq

/-- One entry of `futures_position_information`. -/
structure Position where
  symbol : String
  positionAmt : ℚ
deriving DecidableEq

/-- The keyword arguments the bot passes to `futures_create_order`. -/
structure CreateReq where
  symbol : String
  side : String
  type : String
  quantity : ℚ
  price : Option ℚ
  stopPrice : Option ℚ
  timeInForce : Option String
  timestamp : Option Int
deriving DecidableEq

/-- Observable actions of one run: Gateway calls (`syncCall` is
`get_server_time` inside `sync_time`, `createCall` is
`futures_create_order`, `positionsCall` is `futures_position_information`),
the 1-second `time.sleep(1)` backoff, and error log lines. -/
inductive Event where
  | syncCall
  | createCall (req : CreateReq)
  | sleep
  | errorLog (code : Int)
  | positionsCall
  | closeErrorLog (msg : String)
deriving DecidableEq

/-- The scripted Gateway response to `futures_create_order`: either a
success payload or a `BinanceAPIException` with a numeric code. -/
inductive CreateResp where
  | ok (r : OrderResult)
  | apiErr (code : Int)
deriving DecidableEq

/-- The scripted environment of one submission attempt: the
`get_server_time` response (`none` = the call raises, so `sync_time`
falls back to offset 0), the local clock reading inside `sync_time`, the
local clock reading when the order timestamp is computed, and the
Gateway's answer to `futures_create_order`. -/
structure AttemptScript where
  serverTime : Option Int
  localTimeSync : Int
  localTimeOrder : Int
  create : CreateResp

/-- `sync_time`: `offset = server_time - local_time`; on any exception the
offset is reset to 0 (degraded, not fatal). -/
def syncOffset (sc : AttemptScript) : Int :=
  match sc.serverTime with
  | some st => st - sc.localTimeSync
  | none => 0

/-- Request built by `place_market_order`: type MARKET, with an explicit
`timestamp=int(time.time() * 1000 + self.time_offset)`. -/
def mkMarketReq (symbol side : String) (quantity : ℚ) (sc : AttemptScript)
    (off : Int) : CreateReq :=
  ⟨symbol, side, "MARKET", quantity, none, none, none,
    some (sc.localTimeOrder + off)⟩

/-- Request built by `place_limit_order`: type LIMIT, `timeInForce='GTC'`,
a price, and no explicit timestamp argument. -/
def mkLimitReq (symbol side : String) (quantity price : ℚ)
    (_sc : AttemptScript) (_off : Int) : CreateReq :=
  ⟨symbol, side, "LIMIT", quantity, some price, none, some "GTC", none⟩

/-- Request built by `place_stop_limit_order`: type STOP,
`timeInForce='GTC'`, a price and a stop price, no explicit timestamp. -/
def mkStopLimitReq (symbol side : String) (quantity price stopPrice : ℚ)
    (_sc : AttemptScript) (_off : Int) : CreateReq :=
  ⟨symbol, side, "STOP", quantity, some price, some stopPrice, some "GTC",
    none⟩

/-- The shared retry loop of the three `place_*_order` functions:
`for attempt in range(retries):` sync the clock, submit, return the order
on success; on `BinanceAPIException` with `e.code == -1021` and
`attempt < retries - 1`, sleep 1s and continue, otherwise log the error
and return `None`.  `fuel` counts the iterations left (`retries - attempt`
at the top-level call); falling off the loop returns `None` with no
further events. -/
def placeOrderLoop (script : ℕ → AttemptScript)
    (mkReq : AttemptScript → Int → CreateReq) (retries : ℕ) :
    ℕ → ℕ → List Event × Option OrderResult
  | 0, _ => ([], none)
  | fuel + 1, attempt =>
    match (script attempt).create with
    | CreateResp.ok r =>
      ([Event.syncCall,
        Event.createCall (mkReq (script attempt) (syncOffset (script attempt)))],
       some r)
    | CreateResp.apiErr code =>
      if code = -1021 ∧ attempt < retries - 1 then
        (Event.syncCall ::
          Event.createCall (mkReq (script attempt) (syncOffset (script attempt))) ::
          Event.sleep ::
          (placeOrderLoop script mkReq retries fuel (attempt + 1)).1,
         (placeOrderLoop script mkReq retries fuel (attempt + 1)).2)
      else
        ([Event.syncCall,
          Event.createCall (mkReq (script attempt) (syncOffset (script attempt))),
          Event.errorLog code],
         none)

/-- `place_market_order(symbol, side, quantity, retries)`. -/
def place_market_order (script : ℕ → AttemptScript) (symbol side : String)
    (quantity : ℚ) (retries : ℕ) : List Event × Option OrderResult :=
  placeOrderLoop script (mkMarketReq symbol side quantity) retries retries 0

/-- `place_limit_order(symbol, side, quantity, price, retries)`. -/
def place_limit_order (script : ℕ → AttemptScript) (symbol side : String)
    (quantity price : ℚ) (retries : ℕ) : List Event × Option OrderResult :=
  placeOrderLoop script (mkLimitReq symbol side quantity price) retries retries 0

/-- `place_stop_limit_order(symbol, side, quantity, price, stop_price, retries)`. -/
def place_stop_limit_order (script : ℕ → AttemptScript) (symbol side : String)
    (quantity price stopPrice : ℚ) (retries : ℕ) :
    List Event × Option OrderResult :=
  placeOrderLoop script (mkStopLimitReq symbol side quantity price stopPrice)
    retries retries 0

/-- Event classifiers and counters over a trace. -/
def isCreateEvent : Event → Bool
  | Event.createCall _ => true
  | _ => false

def isSleepEvent : Event → Bool
  | Event.sleep => true
  | _ => false

def isSyncEvent : Event → Bool
  | Event.syncCall => true
  | _ => false

/-- Every event that corresponds to a network request to the Gateway. -/
def isGatewayEvent : Event → Bool
  | Event.createCall _ => true
  | Event.syncCall => true
  | Event.positionsCall => true
  | _ => false

def countCreates (evs : List Event) : ℕ := evs.countP isCreateEvent

def countSleeps (evs : List Event) : ℕ := evs.countP isSleepEvent

def countSyncs (evs : List Event) : ℕ := evs.countP isSyncEvent

def countGatewayCalls (evs : List Event) : ℕ := evs.countP isGatewayEvent

/-- Every `createCall` in the trace is immediately preceded by a
`syncCall` (the clock is re-synchronized at the start of each attempt,
right before the order submission). -/
def syncPrecedesCreate : List Event → Bool
  | [] => true
  | Event.syncCall :: Event.createCall _ :: rest => syncPrecedesCreate rest
  | Event.createCall _ :: _ => false
  | _ :: rest => syncPrecedesCreate rest

/-- `validate_symbol`: fetch `futures_exchange_info`, return True on the
first entry with matching symbol and status `'TRADING'`, else False.
Only `BinanceAPIException` is caught (→ False); any other exception from
the fetch propagates to the caller. -/
def validate_symbol (fetch : Except Exn ExchangeInfo) (symbol : String) :
    Except Exn Bool :=
  match fetch with
  | Except.error (Exn.binanceAPI _) => Except.ok false
  | Except.error e => Except.error e
  | Except.ok info =>
    Except.ok (info.symbols.any fun s =>
      s.symbol == symbol && s.status == "TRADING")

/-- Python dict comprehension `{f['filterType']: f for f in s['filters']}`
followed by `filters['LOT_SIZE']`: the last LOT_SIZE entry wins; a missing
key raises `KeyError`. -/
def lookupLotSize (fs : List ExFilter) : Option ExFilter :=
  fs.reverse.find? fun f => f.filterType == "LOT_SIZE"

/-- The body of `validate_quantity` once the lot-size filter is in hand:
range check first, then `(quantity / step_size) % 1 != 0`.  Division by a
zero step raises `ZeroDivisionError` (floats in Python); the fractional
test `x % 1 != 0` is `Int.fract x ≠ 0` on the rational model. -/
def quantityCheck (quantity : ℚ) (ls : ExFilter) : Except Exn Bool :=
  if quantity < ls.minQty ∨ quantity > ls.maxQty then Except.ok false
  else if ls.stepSize = 0 then Except.error Exn.zeroDivision
  else if Int.fract (quantity / ls.stepSize) ≠ 0 then Except.ok false
  else Except.ok true

/-- The symbol loop of `validate_quantity`: the first entry whose symbol
matches is checked; no match at all returns False. -/
def findAndCheck (symbol : String) (quantity : ℚ) :
    List SymbolInfo → Except Exn Bool
  | [] => Except.ok false
  | s :: rest =>
    if s.symbol = symbol then
      match lookupLotSize s.filters with
      | none => Except.error Exn.keyError
      | some ls => quantityCheck quantity ls
    else findAndCheck symbol quantity rest

/-- `validate_quantity`: fetch `futures_exchange_info`, locate the symbol's
LOT_SIZE filter, check range and step-multiplicity.  Only
`BinanceAPIException` is caught (→ False); other exceptions propagate. -/
def validate_quantity (fetch : Except Exn ExchangeInfo) (symbol : String)
    (quantity : ℚ) : Except Exn Bool :=
  match fetch with
  | Except.error (Exn.binanceAPI _) => Except.ok false
  | Except.error e => Except.error e
  | Except.ok info => findAndCheck symbol quantity info.symbols

/-- `get_position`: first position with matching symbol and nonzero
`positionAmt`; every exception is caught and yields `None`. -/
def get_position (fetch : Except Exn (List Position)) (symbol : String) :
    Option Position :=
  match fetch with
  | Except.error _ => none
  | Except.ok ps =>
    ps.find? fun p => p.symbol == symbol && decide (p.positionAmt ≠ 0)

/-- The scripted Gateway environment for `close_position`: the
`futures_position_information` response and the per-attempt scripts used
by the delegated `place_*_order` call. -/
structure Gateway where
  positions : Except Exn (List Position)
  attempts : ℕ → AttemptScript

/-- The order-type dispatch at the bottom of `close_position`.  MARKET
delegates to `place_market_order`; LIMIT requires a price (otherwise
`ValueError`, caught by the outer handler which logs and returns `None`)
and delegates to `place_limit_order`; anything else is `ValueError`. -/
def closeDispatch (gw : Gateway) (symbol side : String) (quantity : ℚ)
    (orderType : String) (priceOpt : Option ℚ) (retries : ℕ)
    (pre : List Event) : List Event × Option OrderResult :=
  if orderType = "MARKET" then
    ((pre ++ (place_market_order gw.attempts symbol side quantity retries).1),
     (place_market_order gw.attempts symbol side quantity retries).2)
  else if orderType = "LIMIT" then
    match priceOpt with
    | none =>
      (pre ++ [Event.closeErrorLog
        "Failed to close position: Price required for limit orders"], none)
    | some price =>
      ((pre ++
        (place_limit_order gw.attempts symbol side quantity price retries).1),
       (place_limit_order gw.attempts symbol side quantity price retries).2)
  else
    (pre ++ [Event.closeErrorLog "Failed to close position: Invalid order type"],
     none)

/-- `close_position(symbol, side=None, quantity=None, order_type, price,
retries)`: when side or quantity is missing, fetch the position first
(one `futures_position_information` Gateway call); an absent position is
`ValueError("No open position found")`, caught by the outer handler, which
logs and returns `None`.  Side inference: SELL when the signed amount is
positive, else BUY; quantity inference: the absolute amount. -/
def close_position (gw : Gateway) (symbol : String) (sideOpt : Option String)
    (qtyOpt : Option ℚ) (orderType : String) (priceOpt : Option ℚ)
    (retries : ℕ) : List Event × Option OrderResult :=
  if sideOpt.isNone ∨ qtyOpt.isNone then
    match get_position gw.positions symbol with
    | none =>
      ([Event.positionsCall,
        Event.closeErrorLog "Failed to close position: No open position found"],
       none)
    | some p =>
      closeDispatch gw symbol
        (sideOpt.getD (if p.positionAmt > 0 then "SELL" else "BUY"))
        (qtyOpt.getD |p.positionAmt|) orderType priceOpt retries
        [Event.positionsCall]
  else
    closeDispatch gw symbol (sideOpt.getD "") (qtyOpt.getD 0) orderType
      priceOpt retries []

/-! ### Lemmas about the retry loop -/

/-- The loop never issues more order-creation calls than it has iterations
left. -/
theorem placeOrderLoop_createCount_le (script : ℕ → AttemptScript)
    (mkReq : AttemptScript → Int → CreateReq) (retries : ℕ) :
    ∀ fuel attempt,
      countCreates (placeOrderLoop script mkReq retries fuel attempt).1 ≤ fuel := by
  intro fuel
  induction fuel with
  | zero => intro attempt; simp [placeOrderLoop, countCreates]
  | succ f ih =>
    intro attempt
    cases h : (script attempt).create with
    | ok r => simp [placeOrderLoop, h, countCreates, isCreateEvent]
    | apiErr code =>
      by_cases hc : code = -1021 ∧ attempt < retries - 1
      · simp only [placeOrderLoop, h, if_pos hc]
        have := ih (attempt + 1)
        simp [countCreates, List.countP_cons, isCreateEvent] at *
        omega
      · simp only [placeOrderLoop, h, if_neg hc]
        simp [countCreates, isCreateEvent]

/-- Scripted-retry behaviour of the loop: `-1021` on the first `k`
attempts and success on attempt `k+1` yields the success result, `k+1`
order-creation calls, `k` sleeps, and `k+1` clock syncs. -/
theorem placeOrderLoop_retry (script : ℕ → AttemptScript)
    (mkReq : AttemptScript → Int → CreateReq) (retries : ℕ) (r : OrderResult) :
    ∀ k fuel attempt, attempt + fuel = retries → k < fuel →
    (∀ i, i < k → (script (attempt + i)).create = CreateResp.apiErr (-1021)) →
    (script (attempt + k)).create = CreateResp.ok r →
    (placeOrderLoop script mkReq retries fuel attempt).2 = some r ∧
    countCreates (placeOrderLoop script mkReq retries fuel attempt).1 = k + 1 ∧
    countSleeps (placeOrderLoop script mkReq retries fuel attempt).1 = k ∧
    countSyncs (placeOrderLoop script mkReq retries fuel attempt).1 = k + 1 := by
  intro k
  induction k with
  | zero =>
    intro fuel attempt hfa hk _ hsucc
    obtain ⟨f, rfl⟩ : ∃ f, fuel = f + 1 := ⟨fuel - 1, by omega⟩
    rw [show attempt + 0 = attempt by omega] at hsucc
    simp [placeOrderLoop, hsucc, countCreates, countSleeps, countSyncs,
      isCreateEvent, isSleepEvent, isSyncEvent]
  | succ k ih =>
    intro fuel attempt hfa hk hfail hsucc
    obtain ⟨f, rfl⟩ : ∃ f, fuel = f + 1 := ⟨fuel - 1, by omega⟩
    have h0 : (script attempt).create = CreateResp.apiErr (-1021) := by
      have h := hfail 0 (by omega)
      rwa [show attempt + 0 = attempt by omega] at h
    have hrest := ih f (attempt + 1) (by omega) (by omega)
      (fun i hi => by
        have h := hfail (i + 1) (by omega)
        rwa [show attempt + (i + 1) = attempt + 1 + i by omega] at h)
      (by rwa [show attempt + (k + 1) = attempt + 1 + k by omega] at hsucc)
    have hlt : attempt < retries - 1 := by omega
    simp only [placeOrderLoop, h0, hlt, eq_self_iff_true, true_and, if_true]
    obtain ⟨hres, hcre, hslp, hsyn⟩ := hrest
    refine ⟨hres, ?_, ?_, ?_⟩
    · simp [countCreates, List.countP_cons, isCreateEvent] at hcre ⊢; omega
    · simp [countSleeps, List.countP_cons, isSleepEvent] at hslp ⊢; omega
    · simp [countSyncs, List.countP_cons, isSyncEvent] at hsyn ⊢; omega

/-- Every order-creation request the loop emits was built by `mkReq` from
some attempt's script and that same attempt's freshly synced offset. -/
theorem placeOrderLoop_mem_create (script : ℕ → AttemptScript)
    (mkReq : AttemptScript → Int → CreateReq) (retries : ℕ) :
    ∀ fuel attempt req,
      Event.createCall req ∈ (placeOrderLoop script mkReq retries fuel attempt).1 →
      ∃ i, req = mkReq (script i) (syncOffset (script i)) := by
  intro fuel
  induction fuel with
  | zero => intro attempt req h; simp [placeOrderLoop] at h
  | succ f ih =>
    intro attempt req hmem
    cases h : (script attempt).create with
    | ok r =>
      simp [placeOrderLoop, h] at hmem
      exact ⟨attempt, hmem⟩
    | apiErr code =>
      by_cases hc : code = -1021 ∧ attempt < retries - 1
      · simp only [placeOrderLoop, h, if_pos hc] at hmem
        simp at hmem
        rcases hmem with hreq | hrest
        · exact ⟨attempt, hreq⟩
        · exact ih (attempt + 1) req hrest
      · simp only [placeOrderLoop, h, if_neg hc] at hmem
        simp at hmem
        exact ⟨attempt, hmem⟩

/-- In every trace the loop produces, each order submission is directly
preceded by a clock re-synchronization. -/
theorem placeOrderLoop_syncPrecedes (script : ℕ → AttemptScript)
    (mkReq : AttemptScript → Int → CreateReq) (retries : ℕ) :
    ∀ fuel attempt,
      syncPrecedesCreate (placeOrderLoop script mkReq retries fuel attempt).1 = true := by
  intro fuel
  induction fuel with
  | zero => intro attempt; simp [placeOrderLoop, syncPrecedesCreate]
  | succ f ih =>
    intro attempt
    cases h : (script attempt).create with
    | ok r => simp [placeOrderLoop, h, syncPrecedesCreate]
    | apiErr code =>
      by_cases hc : code = -1021 ∧ attempt < retries - 1
      · simp only [placeOrderLoop, h, if_pos hc]
        simp [syncPrecedesCreate, ih (attempt + 1)]
      · simp only [placeOrderLoop, h, if_neg hc]
        simp [syncPrecedesCreate]

/-- A non-`-1021` rejection on the first attempt: one creation call, no
sleep, `None`, and the error code is logged. -/
theorem placeOrderLoop_otherError (script : ℕ → AttemptScript)
    (mkReq : AttemptScript → Int → CreateReq) (retries : ℕ) (c : Int)
    (hr : 1 ≤ retries) (hc : c ≠ -1021)
    (h0 : (script 0).create = CreateResp.apiErr c) :
    (placeOrderLoop script mkReq retries retries 0).2 = none ∧
    countCreates (placeOrderLoop script mkReq retries retries 0).1 = 1 ∧
    countSleeps (placeOrderLoop script mkReq retries retries 0).1 = 0 ∧
    Event.errorLog c ∈ (placeOrderLoop script mkReq retries retries 0).1 := by
  obtain ⟨f, rfl⟩ : ∃ f, retries = f + 1 := ⟨retries - 1, by omega⟩
  have hcond : ¬((c : Int) = -1021 ∧ 0 < f + 1 - 1) := by
    intro hand; exact hc hand.1
  simp only [placeOrderLoop, h0, if_neg hcond]
  simp [countCreates, countSleeps, isCreateEvent, isSleepEvent]

/-- Timestamp-error on every attempt: the loop burns all its fuel, makes
one creation call per iteration, sleeps between iterations, returns
`None`. -/
theorem placeOrderLoop_allTimestampErr (script : ℕ → AttemptScript)
    (mkReq : AttemptScript → Int → CreateReq) :
    ∀ fuel attempt retries, attempt + fuel = retries →
    (∀ i, (script i).create = CreateResp.apiErr (-1021)) →
    (placeOrderLoop script mkReq retries fuel attempt).2 = none ∧
    countCreates (placeOrderLoop script mkReq retries fuel attempt).1 = fuel ∧
    countSleeps (placeOrderLoop script mkReq retries fuel attempt).1 = fuel - 1 := by
  intro fuel
  induction fuel with
  | zero =>
    intro attempt retries _ _
    simp [placeOrderLoop, countCreates, countSleeps]
  | succ f ih =>
    intro attempt retries har hall
    rcases Nat.eq_zero_or_pos f with hf | hf
    · subst hf
      have hge : ¬ attempt < retries - 1 := by omega
      simp only [placeOrderLoop, hall attempt]
      rw [if_neg (by simpa using hge)]
      simp [countCreates, countSleeps, isCreateEvent, isSleepEvent]
    · have hlt : attempt < retries - 1 := by omega
      simp only [placeOrderLoop, hall attempt, hlt, eq_self_iff_true, true_and,
        if_true]
      obtain ⟨hres, hcre, hslp⟩ := ih (attempt + 1) retries (by omega) hall
      refine ⟨hres, ?_, ?_⟩
      · simp [countCreates, List.countP_cons, isCreateEvent] at hcre ⊢; omega
      · simp [countSleeps, List.countP_cons, isSleepEvent] at hslp ⊢; omega

/-- C1: for every `max_attempts ≥ 1` and every scripted Gateway rejecting
order creation with the invalid-timestamp code (`-1021`) on the first `k`
attempts (`k < max_attempts`) and succeeding on attempt `k+1`, each of
`place_market_order`, `place_limit_order` and `place_stop_limit_order`
returns the success result of attempt `k+1`, performs exactly `k+1`
order-creation Gateway calls and exactly `k` one-second sleeps, and issues
no further order-creation call after the first success. -/
theorem C1_retry_returns_first_success (script : ℕ → AttemptScript)
    (symbol side : String) (quantity price stopPrice : ℚ)
    (retries k : ℕ) (r : OrderResult)
    (hk : k < retries)
    (hfail : ∀ i, i < k → (script i).create = CreateResp.apiErr (-1021))
    (hsucc : (script k).create = CreateResp.ok r) :
    ((place_market_order script symbol side quantity retries).2 = some r ∧
     countCreates (place_market_order script symbol side quantity retries).1 = k + 1 ∧
     countSleeps (place_market_order script symbol side quantity retries).1 = k) ∧
    ((place_limit_order script symbol side quantity price retries).2 = some r ∧
     countCreates (place_limit_order script symbol side quantity price retries).1 = k + 1 ∧
     countSleeps (place_limit_order script symbol side quantity price retries).1 = k) ∧
    ((place_stop_limit_order script symbol side quantity price stopPrice retries).2 = some r ∧
     countCreates (place_stop_limit_order script symbol side quantity price stopPrice retries).1 = k + 1 ∧
     countSleeps (place_stop_limit_order script symbol side quantity price stopPrice retries).1 = k) := by
  have hf : ∀ i, i < k → (script (0 + i)).create = CreateResp.apiErr (-1021) := by
    intro i hi; simpa using hfail i hi
  have hs : (script (0 + k)).create = CreateResp.ok r := by simpa using hsucc
  have hm := placeOrderLoop_retry script (mkMarketReq symbol side quantity)
    retries r k retries 0 (by omega) hk hf hs
  have hl := placeOrderLoop_retry script (mkLimitReq symbol side quantity price)
    retries r k retries 0 (by omega) hk hf hs
  have hsl := placeOrderLoop_retry script
    (mkStopLimitReq symbol side quantity price stopPrice)
    retries r k retries 0 (by omega) hk hf hs
  exact ⟨⟨hm.1, hm.2.1, hm.2.2.1⟩, ⟨hl.1, hl.2.1, hl.2.2.1⟩,
    ⟨hsl.1, hsl.2.1, hsl.2.2.1⟩⟩

/-- Scripted Gateway for the C1 witness: `-1021` on attempt 0, success on
attempt 1. -/
def scriptC1 : ℕ → AttemptScript := fun i =>
  ⟨some 5, 2, 3, if i = 0 then CreateResp.apiErr (-1021) else CreateResp.ok 42⟩

theorem C1_retry_returns_first_success_witness :
    (1 < 2 ∧ (scriptC1 1).create = CreateResp.ok 42) ∧
    ((place_market_order scriptC1 "BTCUSDT" "BUY" 1 2).2 = some 42 ∧
     countCreates (place_market_order scriptC1 "BTCUSDT" "BUY" 1 2).1 = 1 + 1 ∧
     countSleeps (place_market_order scriptC1 "BTCUSDT" "BUY" 1 2).1 = 1) :=
  ⟨⟨by decide, rfl⟩,
   (C1_retry_returns_first_success scriptC1 "BTCUSDT" "BUY" 1 2 3 2 1 42
      (by decide)
      (fun i hi => by
        have h0 : i = 0 := by omega
        subst h0; rfl)
      rfl).1⟩

/-- C2: for every `max_attempts ≥ 1` and every scripted Gateway that
rejects order creation with an error code other than `-1021`, each of the
three submission functions performs exactly 1 order-creation Gateway call,
sleeps 0 times, returns `None` (Failure), and logs that error code as the
reason. -/
theorem C2_other_error_no_retry (script : ℕ → AttemptScript)
    (symbol side : String) (quantity price stopPrice : ℚ)
    (retries : ℕ) (c : Int)
    (hr : 1 ≤ retries) (hc : c ≠ -1021)
    (h0 : (script 0).create = CreateResp.apiErr c) :
    ((place_market_order script symbol side quantity retries).2 = none ∧
     countCreates (place_market_order script symbol side quantity retries).1 = 1 ∧
     countSleeps (place_market_order script symbol side quantity retries).1 = 0 ∧
     Event.errorLog c ∈ (place_market_order script symbol side quantity retries).1) ∧
    ((place_limit_order script symbol side quantity price retries).2 = none ∧
     countCreates (place_limit_order script symbol side quantity price retries).1 = 1 ∧
     countSleeps (place_limit_order script symbol side quantity price retries).1 = 0 ∧
     Event.errorLog c ∈ (place_limit_order script symbol side quantity price retries).1) ∧
    ((place_stop_limit_order script symbol side quantity price stopPrice retries).2 = none ∧
     countCreates (place_stop_limit_order script symbol side quantity price stopPrice retries).1 = 1 ∧
     countSleeps (place_stop_limit_order script symbol side quantity price stopPrice retries).1 = 0 ∧
     Event.errorLog c ∈ (place_stop_limit_order script symbol side quantity price stopPrice retries).1) :=
  ⟨placeOrderLoop_otherError script (mkMarketReq symbol side quantity)
      retries c hr hc h0,
   placeOrderLoop_otherError script (mkLimitReq symbol side quantity price)
      retries c hr hc h0,
   placeOrderLoop_otherError script
      (mkStopLimitReq symbol side quantity price stopPrice) retries c hr hc h0⟩

/-- Scripted Gateway for the C2 witness: insufficient-balance code `-2019`
on every attempt. -/
def scriptC2 : ℕ → AttemptScript := fun _ =>
  ⟨some 5, 2, 3, CreateResp.apiErr (-2019)⟩

theorem C2_other_error_no_retry_witness :
    (1 ≤ 3 ∧ (-2019 : Int) ≠ -1021 ∧
     (scriptC2 0).create = CreateResp.apiErr (-2019)) ∧
    ((place_market_order scriptC2 "BTCUSDT" "BUY" 1 3).2 = none ∧
     countCreates (place_market_order scriptC2 "BTCUSDT" "BUY" 1 3).1 = 1 ∧
     countSleeps (place_market_order scriptC2 "BTCUSDT" "BUY" 1 3).1 = 0 ∧
     Event.errorLog (-2019) ∈ (place_market_order scriptC2 "BTCUSDT" "BUY" 1 3).1) :=
  ⟨⟨by decide, by decide, rfl⟩,
   (C2_other_error_no_retry scriptC2 "BTCUSDT" "BUY" 1 2 3 3 (-2019)
      (by decide) (by decide) rfl).1⟩

/-- C3: with `max_attempts := 3` and a Gateway that answers `-1021` on
every attempt, each submission function performs exactly 3 order-creation
calls and returns `None` (Failure); moreover in any run whatsoever the
number of order-creation calls never exceeds `max_attempts`. -/
theorem C3_exhausted_attempts (script : ℕ → AttemptScript)
    (symbol side : String) (quantity price stopPrice : ℚ)
    (hall : ∀ i, (script i).create = CreateResp.apiErr (-1021)) :
    (countCreates (place_market_order script symbol side quantity 3).1 = 3 ∧
     (place_market_order script symbol side quantity 3).2 = none ∧
     countCreates (place_limit_order script symbol side quantity price 3).1 = 3 ∧
     (place_limit_order script symbol side quantity price 3).2 = none ∧
     countCreates (place_stop_limit_order script symbol side quantity price stopPrice 3).1 = 3 ∧
     (place_stop_limit_order script symbol side quantity price stopPrice 3).2 = none) ∧
    (∀ (scr : ℕ → AttemptScript) (sym sd : String) (q p sp : ℚ) (n : ℕ),
      countCreates (place_market_order scr sym sd q n).1 ≤ n ∧
      countCreates (place_limit_order scr sym sd q p n).1 ≤ n ∧
      countCreates (place_stop_limit_order scr sym sd q p sp n).1 ≤ n) := by
  have hm := placeOrderLoop_allTimestampErr script
    (mkMarketReq symbol side quantity) 3 0 3 (by omega) hall
  have hl := placeOrderLoop_allTimestampErr script
    (mkLimitReq symbol side quantity price) 3 0 3 (by omega) hall
  have hsl := placeOrderLoop_allTimestampErr script
    (mkStopLimitReq symbol side quantity price stopPrice) 3 0 3 (by omega) hall
  refine ⟨⟨hm.2.1, hm.1, hl.2.1, hl.1, hsl.2.1, hsl.1⟩, ?_⟩
  intro scr sym sd q p sp n
  exact ⟨placeOrderLoop_createCount_le scr (mkMarketReq sym sd q) n n 0,
    placeOrderLoop_createCount_le scr (mkLimitReq sym sd q p) n n 0,
    placeOrderLoop_createCount_le scr (mkStopLimitReq sym sd q p sp) n n 0⟩

/-- Scripted Gateway for the C3 witness: `-1021` on every attempt. -/
def scriptC3 : ℕ → AttemptScript := fun _ =>
  ⟨some 5, 2, 3, CreateResp.apiErr (-1021)⟩

theorem C3_exhausted_attempts_witness :
    ((scriptC3 0).create = CreateResp.apiErr (-1021)) ∧
    (countCreates (place_market_order scriptC3 "BTCUSDT" "BUY" 1 3).1 = 3 ∧
     (place_market_order scriptC3 "BTCUSDT" "BUY" 1 3).2 = none) :=
  ⟨rfl,
   ⟨(C3_exhausted_attempts scriptC3 "BTCUSDT" "BUY" 1 2 3 (fun _ => rfl)).1.1,
    (C3_exhausted_attempts scriptC3 "BTCUSDT" "BUY" 1 2 3 (fun _ => rfl)).1.2.1⟩⟩

/-- C9: on every submission attempt of each of the three order functions
the clock is re-synchronized right before the order submission; every
market order-creation request carries `timestamp = local_time_ms + offset`
with the offset of that same attempt's fresh sync, and (being the only
order type whose request carries a Gateway-visible timestamp argument in
this code) the limit and stop-limit requests carry none. -/
theorem C9_resync_and_corrected_timestamp (script : ℕ → AttemptScript)
    (symbol side : String) (quantity price stopPrice : ℚ) (retries : ℕ) :
    syncPrecedesCreate (place_market_order script symbol side quantity retries).1 = true ∧
    syncPrecedesCreate (place_limit_order script symbol side quantity price retries).1 = true ∧
    syncPrecedesCreate (place_stop_limit_order script symbol side quantity price stopPrice retries).1 = true ∧
    (∀ req, Event.createCall req ∈ (place_market_order script symbol side quantity retries).1 →
      ∃ i, req.timestamp = some ((script i).localTimeOrder + syncOffset (script i))) ∧
    (∀ req, Event.createCall req ∈ (place_limit_order script symbol side quantity price retries).1 →
      req.timestamp = none) ∧
    (∀ req, Event.createCall req ∈ (place_stop_limit_order script symbol side quantity price stopPrice retries).1 →
      req.timestamp = none) := by
  refine ⟨placeOrderLoop_syncPrecedes script _ retries retries 0,
    placeOrderLoop_syncPrecedes script _ retries retries 0,
    placeOrderLoop_syncPrecedes script _ retries retries 0, ?_, ?_, ?_⟩
  · intro req hmem
    obtain ⟨i, rfl⟩ := placeOrderLoop_mem_create script _ retries retries 0 req hmem
    exact ⟨i, rfl⟩
  · intro req hmem
    obtain ⟨i, rfl⟩ := placeOrderLoop_mem_create script _ retries retries 0 req hmem
    rfl
  · intro req hmem
    obtain ⟨i, rfl⟩ := placeOrderLoop_mem_create script _ retries retries 0 req hmem
    rfl

/-- C10: calling any of the three submission functions with `retries = 0`
skips the loop body entirely: the result is `None` and the trace is empty,
so there are zero Gateway calls, zero clock syncs and zero sleeps. -/
theorem C10_zero_retries_no_calls (script : ℕ → AttemptScript)
    (symbol side : String) (quantity price stopPrice : ℚ) :
    place_market_order script symbol side quantity 0 = ([], none) ∧
    place_limit_order script symbol side quantity price 0 = ([], none) ∧
    place_stop_limit_order script symbol side quantity price stopPrice 0 = ([], none) ∧
    countGatewayCalls (place_market_order script symbol side quantity 0).1 = 0 ∧
    countSyncs (place_market_order script symbol side quantity 0).1 = 0 ∧
    countSleeps (place_market_order script symbol side quantity 0).1 = 0 ∧
    countGatewayCalls (place_limit_order script symbol side quantity price 0).1 = 0 ∧
    countGatewayCalls (place_stop_limit_order script symbol side quantity price stopPrice 0).1 = 0 :=
  ⟨rfl, rfl, rfl, rfl, rfl, rfl, rfl, rfl⟩

/-! ### Lemmas about the validators -/

/-- `Int.fract x = 0` exactly when `x` is an integer. -/
theorem fract_eq_zero_iff_int (x : ℚ) :
    Int.fract x = 0 ↔ ∃ n : ℤ, x = (n : ℚ) := by
  constructor
  · intro h
    refine ⟨⌊x⌋, ?_⟩
    have := Int.fract_add_floor x
    rw [h] at this
    linarith
  · rintro ⟨n, rfl⟩
    exact Int.fract_intCast n

/-- The symbol loop skips entries whose symbol does not match. -/
theorem findAndCheck_append (symbol : String) (q : ℚ)
    (pre rest : List SymbolInfo)
    (hpre : ∀ t ∈ pre, t.symbol ≠ symbol) :
    findAndCheck symbol q (pre ++ rest) = findAndCheck symbol q rest := by
  induction pre with
  | nil => rfl
  | cons t ts ih =>
    have ht : t.symbol ≠ symbol := hpre t (by simp)
    simp only [List.cons_append, findAndCheck, if_neg ht]
    exact ih fun u hu => hpre u (by simp [hu])

/-- Once the queried symbol's entry carries a lot-size filter, the whole
validation reduces to the filter check. -/
theorem validate_quantity_eq_check (info : ExchangeInfo) (symbol : String)
    (pre post : List SymbolInfo) (s : SymbolInfo) (ls : ExFilter) (q : ℚ)
    (hsyms : info.symbols = pre ++ s :: post)
    (hpre : ∀ t ∈ pre, t.symbol ≠ symbol)
    (hs : s.symbol = symbol)
    (hls : lookupLotSize s.filters = some ls) :
    validate_quantity (Except.ok info) symbol q = quantityCheck q ls := by
  simp only [validate_quantity, hsyms]
  rw [findAndCheck_append symbol q pre _ hpre]
  simp only [findAndCheck, if_pos hs, hls]

/-- What the code accepts: in range and an integer multiple of the step
size (of the step size itself, not of the distance to `minQty`). -/
theorem quantityCheck_ok_true_iff (q : ℚ) (ls : ExFilter)
    (hstep : 0 < ls.stepSize) :
    quantityCheck q ls = Except.ok true ↔
      ls.minQty ≤ q ∧ q ≤ ls.maxQty ∧ ∃ n : ℤ, q = (n : ℚ) * ls.stepSize := by
  have hne : ls.stepSize ≠ 0 := ne_of_gt hstep
  unfold quantityCheck
  constructor
  · intro h
    by_cases h1 : q < ls.minQty ∨ q > ls.maxQty
    · rw [if_pos h1] at h
      exact absurd h (by simp)
    · rw [if_neg h1, if_neg hne] at h
      by_cases h3 : Int.fract (q / ls.stepSize) ≠ 0
      · rw [if_pos h3] at h
        exact absurd h (by simp)
      · push_neg at h1
        obtain ⟨n, hn⟩ := (fract_eq_zero_iff_int _).1 (not_not.mp h3)
        refine ⟨h1.1, h1.2, n, ?_⟩
        field_simp at hn
        linarith [hn]
  · rintro ⟨hmin, hmax, n, rfl⟩
    have h1 : ¬((n : ℚ) * ls.stepSize < ls.minQty ∨ (n : ℚ) * ls.stepSize > ls.maxQty) := by
      push_neg; exact ⟨hmin, hmax⟩
    rw [if_neg h1, if_neg hne]
    have hq : (n : ℚ) * ls.stepSize / ls.stepSize = (n : ℚ) := by
      rw [mul_div_assoc, div_self hne, mul_one]
    rw [if_neg (by rw [hq]; simp [Int.fract_intCast])]

/-- Out-of-range quantities are rejected. -/
theorem quantityCheck_out_of_range (q : ℚ) (ls : ExFilter)
    (h : q < ls.minQty ∨ q > ls.maxQty) :
    quantityCheck q ls = Except.ok false := by
  unfold quantityCheck
  rw [if_pos h]

/-- In-range integer multiples of the step size are accepted. -/
theorem quantityCheck_multiple (ls : ExFilter) (hstep : 0 < ls.stepSize)
    (n : ℤ) (h1 : ls.minQty ≤ (n : ℚ) * ls.stepSize)
    (h2 : (n : ℚ) * ls.stepSize ≤ ls.maxQty) :
    quantityCheck ((n : ℚ) * ls.stepSize) ls = Except.ok true := by
  rw [quantityCheck_ok_true_iff _ _ hstep]
  exact ⟨h1, h2, n, rfl⟩

/-- When `minQty` is itself a multiple of the step, the midpoint
`minQty + stepSize/2` is rejected. -/
theorem quantityCheck_halfStep (ls : ExFilter) (hstep : 0 < ls.stepSize)
    (m : ℤ) (hmin : ls.minQty = (m : ℚ) * ls.stepSize) :
    quantityCheck (ls.minQty + ls.stepSize / 2) ls = Except.ok false := by
  have hne : ls.stepSize ≠ 0 := ne_of_gt hstep
  unfold quantityCheck
  by_cases h1 : ls.minQty + ls.stepSize / 2 < ls.minQty ∨
      ls.minQty + ls.stepSize / 2 > ls.maxQty
  · rw [if_pos h1]
  · rw [if_neg h1, if_neg hne]
    have hq : (ls.minQty + ls.stepSize / 2) / ls.stepSize = (m : ℚ) + 1 / 2 := by
      rw [hmin]; field_simp; ring
    rw [if_pos ?_]
    rw [hq, Int.fract_int_add]
    have : Int.fract (1 / 2 : ℚ) = 1 / 2 := by
      rw [Int.fract]
      norm_num
    rw [this]
    norm_num

/-- Exchange-metadata snapshot with `minQty = 1`, `maxQty = 10`,
`stepSize = 2` for symbol AAA. -/
def infoC4 : ExchangeInfo :=
  ⟨[⟨"AAA", "TRADING", [⟨"LOT_SIZE", 1, 10, 2⟩]⟩]⟩

/-- C4 counterexample: with `minQty = 1`, `stepSize = 2`, the quantity 2
is accepted by `validate_quantity` although `(2 - 1) mod 2 ≠ 0`; the code
tests divisibility of the quantity itself by the step, not of the
distance to `minQty`, so the claimed iff fails (and `q = min + 0.5*step`
is exactly this accepted quantity). -/
theorem C4_counterexample :
    validate_quantity (Except.ok infoC4) "AAA" 2 = Except.ok true ∧
    (¬ ∃ n : ℤ, ((2 : ℚ) - 1) = (n : ℚ) * 2) ∧
    (2 : ℚ) = 1 + (1 / 2) * 2 := by
  refine ⟨?_, ?_, by norm_num⟩
  · have hb := validate_quantity_eq_check infoC4 "AAA" [] []
      ⟨"AAA", "TRADING", [⟨"LOT_SIZE", 1, 10, 2⟩]⟩ ⟨"LOT_SIZE", 1, 10, 2⟩ 2
      rfl (by simp) rfl rfl
    rw [hb]
    have := quantityCheck_multiple ⟨"LOT_SIZE", 1, 10, 2⟩ (by norm_num) 1
      (by norm_num) (by norm_num)
    simpa using this
  · rintro ⟨n, hn⟩
    have h2 : ((2 * n : ℤ) : ℚ) = 1 := by push_cast; linarith
    have h3 : (2 * n : ℤ) = 1 := by exact_mod_cast h2
    omega

/-- C4 amended: for every metadata snapshot whose (first-matching) entry
for the queried symbol carries a lot-size filter with positive step,
`is_valid_quantity` returns true iff `minQty ≤ q ≤ maxQty` and `q` is an
integer multiple of `stepSize` (not of `q - minQty`); in particular it
returns false out of range, true for in-range multiples of the step, and
false for `q = minQty + 0.5*stepSize` whenever `minQty` is itself a
multiple of the step. -/
theorem C4_amended_step_multiple (info : ExchangeInfo) (symbol : String)
    (q : ℚ) (pre post : List SymbolInfo) (s : SymbolInfo) (ls : ExFilter)
    (hsyms : info.symbols = pre ++ s :: post)
    (hpre : ∀ t ∈ pre, t.symbol ≠ symbol)
    (hs : s.symbol = symbol)
    (hls : lookupLotSize s.filters = some ls)
    (hstep : 0 < ls.stepSize) :
    (validate_quantity (Except.ok info) symbol q = Except.ok true ↔
      ls.minQty ≤ q ∧ q ≤ ls.maxQty ∧ ∃ n : ℤ, q = (n : ℚ) * ls.stepSize) ∧
    (∀ q' : ℚ, (q' < ls.minQty ∨ q' > ls.maxQty) →
      validate_quantity (Except.ok info) symbol q' = Except.ok false) ∧
    (∀ n : ℤ, ls.minQty ≤ (n : ℚ) * ls.stepSize →
      (n : ℚ) * ls.stepSize ≤ ls.maxQty →
      validate_quantity (Except.ok info) symbol ((n : ℚ) * ls.stepSize) =
        Except.ok true) ∧
    (∀ m : ℤ, ls.minQty = (m : ℚ) * ls.stepSize →
      validate_quantity (Except.ok info) symbol (ls.minQty + ls.stepSize / 2) =
        Except.ok false) := by
  have hb : ∀ q' : ℚ,
      validate_quantity (Except.ok info) symbol q' = quantityCheck q' ls :=
    fun q' => validate_quantity_eq_check info symbol pre post s ls q'
      hsyms hpre hs hls
  refine ⟨?_, ?_, ?_, ?_⟩
  · rw [hb]
    exact quantityCheck_ok_true_iff q ls hstep
  · intro q' h
    rw [hb]
    exact quantityCheck_out_of_range q' ls h
  · intro n h1 h2
    rw [hb]
    exact quantityCheck_multiple ls hstep n h1 h2
  · intro m hm
    rw [hb]
    exact quantityCheck_halfStep ls hstep m hm

theorem C4_amended_step_multiple_witness :
    ((0 : ℚ) < 2 ∧ infoC4.symbols =
      [] ++ (⟨"AAA", "TRADING", [⟨"LOT_SIZE", 1, 10, 2⟩]⟩ : SymbolInfo) :: []) ∧
    ((validate_quantity (Except.ok infoC4) "AAA" 4 = Except.ok true ↔
      (1 : ℚ) ≤ 4 ∧ (4 : ℚ) ≤ 10 ∧ ∃ n : ℤ, (4 : ℚ) = (n : ℚ) * 2) ∧
     (∀ q' : ℚ, (q' < 1 ∨ q' > 10) →
      validate_quantity (Except.ok infoC4) "AAA" q' = Except.ok false) ∧
     (∀ n : ℤ, (1 : ℚ) ≤ (n : ℚ) * 2 → (n : ℚ) * 2 ≤ 10 →
      validate_quantity (Except.ok infoC4) "AAA" ((n : ℚ) * 2) = Except.ok true) ∧
     (∀ m : ℤ, (1 : ℚ) = (m : ℚ) * 2 →
      validate_quantity (Except.ok infoC4) "AAA" ((1 : ℚ) + 2 / 2) = Except.ok false)) :=
  ⟨⟨by norm_num, rfl⟩,
   C4_amended_step_multiple infoC4 "AAA" 4 [] []
     ⟨"AAA", "TRADING", [⟨"LOT_SIZE", 1, 10, 2⟩]⟩ ⟨"LOT_SIZE", 1, 10, 2⟩
     rfl (by simp) rfl rfl (by norm_num)⟩

/-- C6 counterexample: a transport error during the metadata fetch is not
a `BinanceAPIException`, so neither validator converts it to `false`; the
exception propagates to the caller. -/
theorem C6_counterexample :
    validate_symbol (Except.error Exn.transport) "BTCUSDT" =
      Except.error Exn.transport ∧
    validate_quantity (Except.error Exn.transport) "BTCUSDT" 1 =
      Except.error Exn.transport ∧
    (Except.error Exn.transport : Except Exn Bool) ≠ Except.ok false :=
  ⟨rfl, rfl, by simp⟩

/-- C6 amended: when the metadata call fails with a `BinanceAPIException`
(any code), both validators return false and swallow the error; when it
fails with any other transport exception, both validators let the
exception escape instead of returning false. -/
theorem C6_amended_api_error_fails_closed (c : Int) (symbol : String) (q : ℚ) :
    validate_symbol (Except.error (Exn.binanceAPI c)) symbol = Except.ok false ∧
    validate_quantity (Except.error (Exn.binanceAPI c)) symbol q = Except.ok false ∧
    validate_symbol (Except.error Exn.transport) symbol =
      Except.error Exn.transport ∧
    validate_quantity (Except.error Exn.transport) symbol q =
      Except.error Exn.transport :=
  ⟨rfl, rfl, rfl, rfl⟩

/-! ### Lemmas about position closing -/

/-- Every order-creation request emitted by the dispatch carries the side
and quantity that `close_position` resolved. -/
theorem closeDispatch_mem_create (gw : Gateway) (symbol side : String)
    (quantity : ℚ) (orderType : String) (priceOpt : Option ℚ) (retries : ℕ)
    (pre : List Event) (hpre : ∀ req, Event.createCall req ∉ pre) :
    ∀ req,
      Event.createCall req ∈
        (closeDispatch gw symbol side quantity orderType priceOpt retries pre).1 →
      req.side = side ∧ req.quantity = quantity := by
  intro req hmem
  unfold closeDispatch at hmem
  by_cases hM : orderType = "MARKET"
  · rw [if_pos hM] at hmem
    rcases List.mem_append.mp hmem with hin | hin
    · exact absurd hin (hpre req)
    · obtain ⟨i, rfl⟩ := placeOrderLoop_mem_create gw.attempts
        (mkMarketReq symbol side quantity) retries retries 0 req hin
      exact ⟨rfl, rfl⟩
  · rw [if_neg hM] at hmem
    by_cases hL : orderType = "LIMIT"
    · rw [if_pos hL] at hmem
      cases priceOpt with
      | none =>
        rcases List.mem_append.mp hmem with hin | hin
        · exact absurd hin (hpre req)
        · simp at hin
      | some price =>
        rcases List.mem_append.mp hmem with hin | hin
        · exact absurd hin (hpre req)
        · obtain ⟨i, rfl⟩ := placeOrderLoop_mem_create gw.attempts
            (mkLimitReq symbol side quantity price) retries retries 0 req hin
          exact ⟨rfl, rfl⟩
    · rw [if_neg hL] at hmem
      rcases List.mem_append.mp hmem with hin | hin
      · exact absurd hin (hpre req)
      · simp at hin

/-- Gateway with an open long position of 1 XYZ (the create scripts are
irrelevant: the LIMIT-without-price path never reaches them). -/
def gwC5 : Gateway :=
  ⟨Except.ok [⟨"XYZ", 1⟩], fun _ => ⟨some 0, 0, 0, CreateResp.apiErr 0⟩⟩

/-- C5 counterexample: `close_position` with `order_type='LIMIT'` and
`price=None` but auto-detected side/quantity fetches the position first,
so it performs one Gateway call (the position fetch), not zero, before
failing. -/
theorem C5_counterexample :
    countGatewayCalls (close_position gwC5 "XYZ" none none "LIMIT" none 3).1 = 1 ∧
    countGatewayCalls (close_position gwC5 "XYZ" none none "LIMIT" none 3).1 ≠ 0 ∧
    (close_position gwC5 "XYZ" none none "LIMIT" none 3).2 = none := by
  refine ⟨rfl, by decide, rfl⟩

/-- C5 amended: a LIMIT close without a price always fails with `None` and
submits no order; it performs zero Gateway calls when side and quantity
are both supplied, but when either is left for auto-detection it performs
exactly one Gateway call (the position fetch) before failing. -/
theorem C5_amended_limit_close_without_price (gw : Gateway)
    (symbol side : String) (quantity : ℚ) (retries : ℕ)
    (sideOpt : Option String) (qtyOpt : Option ℚ)
    (h : sideOpt.isNone ∨ qtyOpt.isNone) :
    (close_position gw symbol (some side) (some quantity) "LIMIT" none retries =
      ([Event.closeErrorLog
          "Failed to close position: Price required for limit orders"], none) ∧
     countGatewayCalls
       (close_position gw symbol (some side) (some quantity) "LIMIT" none retries).1 = 0) ∧
    ((close_position gw symbol sideOpt qtyOpt "LIMIT" none retries).2 = none ∧
     countGatewayCalls
       (close_position gw symbol sideOpt qtyOpt "LIMIT" none retries).1 = 1 ∧
     countCreates
       (close_position gw symbol sideOpt qtyOpt "LIMIT" none retries).1 = 0) := by
  have hLM : ("LIMIT" : String) ≠ "MARKET" := by decide
  constructor
  · have hno : ¬((some side : Option String).isNone = true ∨
        (some quantity : Option ℚ).isNone = true) := by simp
    unfold close_position
    rw [if_neg hno]
    unfold closeDispatch
    rw [if_neg hLM, if_pos rfl]
    exact ⟨rfl, rfl⟩
  · cases hgp : get_position gw.positions symbol with
    | none =>
      unfold close_position
      rw [if_pos h, hgp]
      exact ⟨rfl, rfl, rfl⟩
    | some p =>
      unfold close_position
      rw [if_pos h, hgp]
      show ((closeDispatch gw symbol _ _ "LIMIT" none retries
        [Event.positionsCall]).2 = none) ∧ _
      unfold closeDispatch
      rw [if_neg hLM, if_pos rfl]
      exact ⟨rfl, rfl, rfl⟩

/-- Gateway with an open long position of 1 XYZ for the C5 witness. -/
def gwC5w : Gateway :=
  ⟨Except.ok [⟨"XYZ", 1⟩], fun _ => ⟨some 0, 0, 0, CreateResp.ok 9⟩⟩

theorem C5_amended_limit_close_without_price_witness :
    ((none : Option String).isNone = true ∨ (none : Option ℚ).isNone = true) ∧
    (close_position gwC5w "XYZ" (some "SELL") (some 1) "LIMIT" none 3 =
      ([Event.closeErrorLog
          "Failed to close position: Price required for limit orders"], none) ∧
     countGatewayCalls
       (close_position gwC5w "XYZ" (some "SELL") (some 1) "LIMIT" none 3).1 = 0) ∧
    ((close_position gwC5w "XYZ" none none "LIMIT" none 3).2 = none ∧
     countGatewayCalls (close_position gwC5w "XYZ" none none "LIMIT" none 3).1 = 1 ∧
     countCreates (close_position gwC5w "XYZ" none none "LIMIT" none 3).1 = 0) :=
  ⟨Or.inl rfl,
   (C5_amended_limit_close_without_price gwC5w "XYZ" "SELL" 1 3 none none
      (Or.inl rfl)).1,
   (C5_amended_limit_close_without_price gwC5w "XYZ" "SELL" 1 3 none none
      (Or.inl rfl)).2⟩

/-- C7: when `close_position` is called with side and quantity
unspecified and the fetched position has signed amount `a ≠ 0`, every
order it submits carries side SELL if `a > 0`, side BUY if `a < 0`, and
quantity `|a|`. -/
theorem C7_close_infers_side_and_quantity (gw : Gateway) (symbol : String)
    (orderType : String) (priceOpt : Option ℚ) (retries : ℕ) (p : Position)
    (hp : get_position gw.positions symbol = some p) :
    ∀ req, Event.createCall req ∈
        (close_position gw symbol none none orderType priceOpt retries).1 →
      (0 < p.positionAmt → req.side = "SELL") ∧
      (p.positionAmt < 0 → req.side = "BUY") ∧
      req.quantity = |p.positionAmt| := by
  intro req hmem
  unfold close_position at hmem
  rw [if_pos (by simp), hp] at hmem
  have hsq := closeDispatch_mem_create gw symbol
    (if p.positionAmt > 0 then "SELL" else "BUY") |p.positionAmt|
    orderType priceOpt retries [Event.positionsCall] (by simp) req hmem
  refine ⟨?_, ?_, hsq.2⟩
  · intro hpos
    rw [hsq.1, if_pos hpos]
  · intro hneg
    rw [hsq.1, if_neg (by intro hpos; linarith)]

/-- Gateway with a short position of −2.5 XYZ whose market close
succeeds on the first attempt. -/
def gwC7 : Gateway :=
  ⟨Except.ok [⟨"XYZ", -(5 : ℚ) / 2⟩], fun _ => ⟨some 5, 2, 3, CreateResp.ok 7⟩⟩

theorem C7_close_infers_side_and_quantity_witness :
    (get_position gwC7.positions "XYZ" =
      some (⟨"XYZ", -(5 : ℚ) / 2⟩ : Position)) ∧
    (close_position gwC7 "XYZ" none none "MARKET" none 1).1 =
      [Event.positionsCall, Event.syncCall,
       Event.createCall ⟨"XYZ", "BUY", "MARKET", 5 / 2, none, none, none, some 6⟩] ∧
    (∀ req, Event.createCall req ∈
        (close_position gwC7 "XYZ" none none "MARKET" none 1).1 →
      (0 < (⟨"XYZ", -(5 : ℚ) / 2⟩ : Position).positionAmt → req.side = "SELL") ∧
      ((⟨"XYZ", -(5 : ℚ) / 2⟩ : Position).positionAmt < 0 → req.side = "BUY") ∧
      req.quantity = |(⟨"XYZ", -(5 : ℚ) / 2⟩ : Position).positionAmt|) :=
  ⟨by norm_num [get_position, gwC7, List.find?],
   by norm_num [close_position, get_position, closeDispatch, gwC7,
     place_market_order, placeOrderLoop, mkMarketReq, syncOffset,
     List.find?, abs],
   C7_close_infers_side_and_quantity gwC7 "XYZ" "MARKET" none 1
     ⟨"XYZ", -(5 : ℚ) / 2⟩ (by norm_num [get_position, gwC7, List.find?])⟩

/-- C8: when side or quantity is unspecified and every position entry for
the symbol has zero amount (or none exists at all), `close_position`
returns `None` (Failure), submits no order, and logs the no-open-position
reason. -/
theorem C8_no_open_position_fails (gw : Gateway) (symbol : String)
    (sideOpt : Option String) (qtyOpt : Option ℚ) (orderType : String)
    (priceOpt : Option ℚ) (retries : ℕ) (ps : List Position)
    (hps : gw.positions = Except.ok ps)
    (hzero : ∀ p ∈ ps, p.symbol = symbol → p.positionAmt = 0)
    (hopt : sideOpt.isNone ∨ qtyOpt.isNone) :
    (close_position gw symbol sideOpt qtyOpt orderType priceOpt retries).2 = none ∧
    countCreates
      (close_position gw symbol sideOpt qtyOpt orderType priceOpt retries).1 = 0 ∧
    Event.closeErrorLog "Failed to close position: No open position found" ∈
      (close_position gw symbol sideOpt qtyOpt orderType priceOpt retries).1 := by
  have hgp : get_position gw.positions symbol = none := by
    rw [hps]
    simp only [get_position]
    rw [List.find?_eq_none]
    intro p hpmem
    simp only [Bool.and_eq_true, beq_iff_eq, decide_eq_true_eq, not_and]
    intro h1 h2
    exact h2 (hzero p hpmem h1)
  unfold close_position
  rw [if_pos hopt, hgp]
  exact ⟨rfl, rfl, by simp⟩

/-- Gateway whose only position for ABC has zero amount. -/
def gwC8 : Gateway :=
  ⟨Except.ok [⟨"ABC", 0⟩], fun _ => ⟨some 0, 0, 0, CreateResp.ok 1⟩⟩

theorem C8_no_open_position_fails_witness :
    (gwC8.positions = Except.ok [⟨"ABC", 0⟩] ∧
     (none : Option String).isNone = true ∨ (none : Option ℚ).isNone = true) ∧
    ((close_position gwC8 "ABC" none none "MARKET" none 3).2 = none ∧
     countCreates (close_position gwC8 "ABC" none none "MARKET" none 3).1 = 0 ∧
     Event.closeErrorLog "Failed to close position: No open position found" ∈
       (close_position gwC8 "ABC" none none "MARKET" none 3).1) :=
  ⟨Or.inl ⟨rfl, rfl⟩,
   C8_no_open_position_fails gwC8 "ABC" none none "MARKET" none 3
     [⟨"ABC", 0⟩] rfl
     (fun p hp _ => by simp at hp; rw [hp]) (Or.inl rfl)⟩
